import Mathlib

/-!
Verification of the YouTube-video RAG chatbot core (video processing,
retrieval, answer synthesis, and session handling).

The development shallowly embeds the TypeScript services
(`videoProcessor.ts`, `chatService.ts`) and the submission handler of the
application component.  JavaScript numbers are modelled as real numbers
(`ℝ`); the external collaborators (OpenAI embedding and chat endpoints,
the transcript source, the metadata endpoint, `Math.random`, and
`Number.toFixed` formatting) are modelled as oracle fields of an `Env`
record.  Fallible operations return `Except String`, mirroring thrown
JavaScript errors; `Math.random` is modelled as a stream `rand : Nat → ℝ`
consumed at an explicitly threaded position, so that one draw at position
`p` yields `rand p` and advances the position.
-/

/-- A transcript chunk: `{ id, text }` from `types.ts` (the optional
`startTime`/`endTime` fields are never produced by the code and are
omitted). -/
structure TextChunk where
  id : String
  text : String
deriving DecidableEq, Repr

/-- `VideoData` from `types.ts`. -/
structure VideoData where
  id : String
  title : String
  thumbnail : String
  duration : String
  transcript : String
  chunks : List TextChunk
  embeddings : List (List ℝ)

/-- Message author (`'user' | 'assistant'`). -/
inductive MsgType where
  | user
  | assistant
deriving DecidableEq, Repr

/-- `ChatMessage` from `types.ts`; `Date` timestamps are modelled as `Nat`
milliseconds, and the optional `context` field (never written by the code)
is omitted. -/
structure ChatMessage where
  id : String
  type : MsgType
  content : String
  timestamp : Nat
deriving DecidableEq, Repr

/-- `ProcessingState` from `types.ts`. -/
inductive ProcState where
  | idle
  | processing
  | ready
  | error
deriving DecidableEq, Repr

/-- The mutable state of the `App` component: the four `useState` cells. -/
structure AppState where
  processingState : ProcState
  videoData : Option VideoData
  messages : List ChatMessage
  error : Option String

/-- One element of the `similarities` array built by `findRelevantChunks`:
`{ chunk: videoData.chunks[index], similarity, index }`.  The `chunk`
field is an `Option` because the JavaScript indexing
`videoData.chunks[index]` yields `undefined` when the chunk and embedding
lists have mismatched lengths. -/
structure RankedChunk where
  chunk : Option TextChunk
  similarity : ℝ
  index : Nat

/-- Loop state of `chunkText`: the accumulated chunks, the running buffer
`currentChunk`, and the next id `chunkId`. -/
structure ChunkState where
  chunks : List TextChunk
  current : String
  chunkId : Nat

/-- The external world: configuration and collaborator oracles.
`apiKey` is `import.meta.env.VITE_OPENAI_API_KEY` (`none` = unset);
`rand` is the `Math.random()` stream; `embedApi` is
`openai.embeddings.create` returning the embedding of the input text;
`chatApi` is `openai.chat.completions.create` applied to a system and a
user message, returning the reply content (the fixed model name,
`max_tokens` and `temperature` are transport details absorbed by the
oracle, and a returned empty string models a `null`/empty content);
`transcriptApi` is `YoutubeTranscript.fetchTranscript` returning the list
of caption item texts; `metadataApi` is the oEmbed fetch returning the
video title; `fmtReal` is `Number.prototype.toFixed(2)`. -/
structure Env where
  apiKey : Option String
  rand : Nat → ℝ
  embedApi : String → Except String (List ℝ)
  chatApi : String → String → Except String String
  transcriptApi : String → Except String (List String)
  metadataApi : String → Except String String
  fmtReal : ℝ → String

/-- ASCII whitespace test used by `trim` (JavaScript trims a slightly
larger Unicode set; the transcripts and templates here are ASCII). -/
def isSpaceChar (c : Char) : Bool :=
  c.isWhitespace

/-- Remove leading and trailing whitespace from a character list. -/
def trimChars (l : List Char) : List Char :=
  ((l.dropWhile isSpaceChar).reverse.dropWhile isSpaceChar).reverse

/-- JavaScript `String.prototype.trim`. -/
def jsTrim (s : String) : String :=
  ⟨trimChars s.data⟩

/-- JavaScript `Array.prototype.join(sep)`. -/
def joinWith (sep : String) : List String → String
  | [] => ""
  | [s] => s
  | s :: t :: rest => s ++ sep ++ joinWith sep (t :: rest)

/-- JavaScript `String.prototype.split(' ')`: split on every single space,
keeping empty fields. -/
def jsSplitSpace (s : String) : List String :=
  (s.data.splitOnP (fun c => c = ' ')).map (fun cs => (⟨cs⟩ : String))

/-- JavaScript `Array.prototype.slice(-n)`: the last `n` elements
(`slice(-0)` is `slice(0)`, the whole array). -/
def jsSliceLast (n : Nat) (l : List α) : List α :=
  if n = 0 then l else l.drop (l.length - n)

/-- `s.startsWith(p)` (decidable, character-list based). -/
def strStartsWith (s p : String) : Bool :=
  s.data.take p.data.length == p.data

/-- A single apostrophe, used to assemble the template texts. -/
def apos : String :=
  ⟨[Char.ofNat 39]⟩

/-- Sentence-terminal punctuation of the chunker: `.`, `!`, `?`. -/
def isTerminal (c : Char) : Bool :=
  c = '.' || c = '!' || c = '?'

/-- `text.split(/[.!?]+/).filter(s => s.trim().length > 0)`.  Splitting on
single terminal characters instead of maximal runs only introduces extra
empty fields, which the filter removes, so the two splits agree after
filtering. -/
def sentenceUnits (text : String) : List String :=
  ((text.data.splitOnP isTerminal).map (fun cs => (⟨cs⟩ : String))).filter
    (fun s => 0 < (jsTrim s).length)

/-- One iteration of the `chunkText` loop body on the next sentence unit:
the trimmed unit gets its terminal `.` back; the running buffer is closed
into a chunk exactly when extending it with the sentence would exceed
`chunkSize` and the buffer is non-empty, in which case the next buffer is
seeded with the last `overlap` space-separated words of the old buffer
followed by the sentence; otherwise the sentence is appended (with a
separating space if the buffer is non-empty). -/
def processSentence (chunkSize overlap : Nat) (st : ChunkState) (unit : String) :
    ChunkState :=
  if chunkSize < st.current.length + (jsTrim unit ++ ".").length ∧
      0 < st.current.length then
    ⟨st.chunks ++ [⟨"chunk-" ++ toString st.chunkId, jsTrim st.current⟩],
      joinWith " " (jsSliceLast overlap (jsSplitSpace st.current)) ++ " " ++
        (jsTrim unit ++ "."),
      st.chunkId + 1⟩
  else
    ⟨st.chunks,
      st.current ++ (if st.current = "" then "" else " ") ++ (jsTrim unit ++ "."),
      st.chunkId⟩

/-- The epilogue of `chunkText`: push the remaining buffer if its trimmed
form is non-empty. -/
def finalizeChunks (f : ChunkState) : List TextChunk :=
  if jsTrim f.current ≠ "" then
    f.chunks ++ [⟨"chunk-" ++ toString f.chunkId, jsTrim f.current⟩]
  else
    f.chunks

/-- `chunkText` from `videoProcessor.ts` (parameters `chunkSize = 500`,
`overlap = 50` at the call site). -/
def chunkText (text : String) (chunkSize overlap : Nat) : List TextChunk :=
  finalizeChunks
    ((sentenceUnits text).foldl (processSentence chunkSize overlap) ⟨[], "", 0⟩)

/-- Character class `[a-zA-Z0-9_-]` of the video-id pattern. -/
def isIdChar (c : Char) : Bool :=
  c.isAlpha || c.isDigit || c = '_' || c = '-'

/-- Try the video-id pattern with the given literal head at the start of
`l`: the head must be present, followed by exactly 11 id characters. -/
def tryPat (pat l : List Char) : Option (List Char) :=
  if l.take pat.length = pat then
    let cand := (l.drop pat.length).take 11
    if cand.length = 11 ∧ cand.all isIdChar then some cand else none
  else none

/-- Try both alternatives of the regex at the current position. -/
def tryMatch (l : List Char) : Option (List Char) :=
  match tryPat "youtube.com/watch?v=".data l with
  | some cand => some cand
  | none => tryPat "youtu.be/".data l

/-- Scan for the leftmost match, advancing one character at a time, as the
regex engine does for the pattern
`(?:youtube.com/watch?v=|youtu.be/)([a-zA-Z0-9_-]{11})` (dots, question
mark and slashes escaped in the source). -/
def findVideoId : List Char → Option (List Char)
  | [] => none
  | c :: rest =>
    match tryMatch (c :: rest) with
    | some cand => some cand
    | none => findVideoId rest

/-- `extractVideoId` from `videoProcessor.ts`. -/
def extractVideoId (url : String) : Option String :=
  (findVideoId url.data).map (fun cs => (⟨cs⟩ : String))

/-- The hard-coded mock transcript for `dQw4w9WgXcQ`. -/
def rickMockTranscript : String :=
  "This is a classic music video featuring Rick Astley performing \"Never Gonna Give You Up\". The song became famous as part of internet culture and \"Rickrolling\". The video shows Rick Astley singing and dancing in various settings."

/-- The hard-coded mock transcript for `jNQXAC9IVRw`. -/
def mlMockTranscript : String :=
  "This video discusses the fundamentals of machine learning and artificial intelligence. It covers topics like neural networks, deep learning algorithms, and practical applications in various industries. Key concepts include supervised learning, unsupervised learning, and reinforcement learning."

/-- The hard-coded mock transcript for `ScMzIvxBSi4`. -/
def reactMockTranscript : String :=
  "A comprehensive tutorial on React.js development covering components, hooks, state management, and modern React patterns. The video explains how to build scalable applications using React best practices and includes practical examples."

/-- The `mockTranscripts` dictionary lookup. -/
def mockTranscripts (videoId : String) : Option String :=
  if videoId = "dQw4w9WgXcQ" then some rickMockTranscript
  else if videoId = "jNQXAC9IVRw" then some mlMockTranscript
  else if videoId = "ScMzIvxBSi4" then some reactMockTranscript
  else none

/-- The catch-all mock transcript. -/
def defaultMockTranscript : String :=
  "This video content covers various topics and provides valuable information on the subject matter. The speaker discusses important concepts and shares insights based on their expertise in the field."

/-- `extractTranscript` from `videoProcessor.ts`: join the fetched caption
texts with spaces; on any fetch failure, fall back to the mock dictionary
(or its catch-all default). -/
def extractTranscript (env : Env) (videoId : String) : String :=
  match env.transcriptApi videoId with
  | .ok items => joinWith " " items
  | .error _ => (mockTranscripts videoId).getD defaultMockTranscript

/-- `minutes.toString().padStart(2, '0')`. -/
def pad2 (n : Nat) : String :=
  if n < 10 then "0" ++ toString n else toString n

/-- `formatDuration` from `videoProcessor.ts`. -/
def formatDuration (seconds : Nat) : String :=
  let hours := seconds / 3600
  let minutes := (seconds % 3600) / 60
  let secs := seconds % 60
  if hours > 0 then toString hours ++ ":" ++ pad2 minutes ++ ":" ++ pad2 secs
  else toString minutes ++ ":" ++ pad2 secs

noncomputable section

/-- One mock embedding:
`Array.from({ length: 1536 }, () => Math.random() - 0.5)`, drawing the
1536 values from the `Math.random` stream starting at position `pos`. -/
def mockVector (env : Env) (pos : Nat) : List ℝ :=
  (List.range 1536).map (fun i => env.rand (pos + i) - 0.5)

/-- The provider loop of `generateEmbeddings`: embed the chunks one by
one, aborting at the first provider error (the `for … await` loop inside
the `try` block). -/
def embedChunksLive (api : String → Except String (List ℝ)) :
    List TextChunk → Except String (List (List ℝ))
  | [] => .ok []
  | c :: rest =>
    match api c.text with
    | .error e => .error e
    | .ok v =>
      match embedChunksLive api rest with
      | .error e => .error e
      | .ok vs => .ok (v :: vs)

/-- `generateEmbeddings` from `videoProcessor.ts`.  Without an API key it
returns one mock vector per chunk; with a key it runs the provider loop
and, if that loop throws anywhere, discards any partial results and falls
back to mock vectors for the whole list.  The returned `Nat` is the
advanced `Math.random` stream position. -/
def generateEmbeddings (env : Env) (pos : Nat) (chunks : List TextChunk) :
    List (List ℝ) × Nat :=
  match env.apiKey with
  | none =>
    (chunks.mapIdx (fun i _ => mockVector env (pos + 1536 * i)),
      pos + 1536 * chunks.length)
  | some _ =>
    match embedChunksLive env.embedApi chunks with
    | .ok es => (es, pos)
    | .error _ =>
      (chunks.mapIdx (fun i _ => mockVector env (pos + 1536 * i)),
        pos + 1536 * chunks.length)

/-- `processVideo` from `videoProcessor.ts`.  The `onStateChange` progress
callback is presentation-only and omitted.  The guard
`!transcript || transcript.length < 50` collapses to the length test
because the empty string has length `0 < 50`. -/
def processVideo (env : Env) (pos : Nat) (url : String) :
    Except String (VideoData × Nat) :=
  match extractVideoId url with
  | none => .error "Invalid YouTube URL"
  | some videoId =>
    match env.metadataApi videoId with
    | .error e => .error e
    | .ok title =>
      if (extractTranscript env videoId).length < 50 then
        .error "No transcript available for this video or transcript is too short"
      else if (chunkText (extractTranscript env videoId) 500 50).length = 0 then
        .error "Failed to process video transcript"
      else
        .ok (⟨videoId, title,
          "https://img.youtube.com/vi/" ++ videoId ++ "/maxresdefault.jpg",
          formatDuration 300, extractTranscript env videoId,
          chunkText (extractTranscript env videoId) 500 50,
          (generateEmbeddings env pos
            (chunkText (extractTranscript env videoId) 500 50)).1⟩,
          (generateEmbeddings env pos
            (chunkText (extractTranscript env videoId) 500 50)).2)

/-- The `dotProduct` accumulator of `cosineSimilarity`: the loop runs over
the indices of the first vector, so out-of-range accesses of `b` are
modelled by the `getD` default (in JavaScript they would poison the sum
with `NaN`; all call sites pass equal-length vectors). -/
def simDot (a b : List ℝ) : ℝ :=
  ∑ i ∈ Finset.range a.length, a.getD i 0 * b.getD i 0

/-- The `normA` accumulator of `cosineSimilarity`. -/
def simNormA (a : List ℝ) : ℝ :=
  ∑ i ∈ Finset.range a.length, a.getD i 0 * a.getD i 0

/-- The `normB` accumulator of `cosineSimilarity`; note that the loop
bound is the length of the *first* vector. -/
def simNormB (a b : List ℝ) : ℝ :=
  ∑ i ∈ Finset.range a.length, b.getD i 0 * b.getD i 0

/-- `cosineSimilarity` from `chatService.ts`:
`dotProduct / (Math.sqrt(normA) * Math.sqrt(normB))`.  Lean's real
division returns `0` on a zero divisor where IEEE arithmetic returns
`NaN`; `cosineSimilarityChecked` makes that partiality explicit. -/
def cosineSimilarity (a b : List ℝ) : ℝ :=
  simDot a b / (Real.sqrt (simNormA a) * Real.sqrt (simNormB a b))

/-- The same computation with the division guarded: `none` exactly when
the divisor is zero, i.e. when the JavaScript expression evaluates to
`NaN` (the division is unguarded in the source). -/
def cosineSimilarityChecked (a b : List ℝ) : Option ℝ :=
  if Real.sqrt (simNormA a) * Real.sqrt (simNormB a b) = 0 then none
  else some (cosineSimilarity a b)

/-- `generateQueryEmbedding` from `chatService.ts`: without a key, or when
the provider call throws, fall back to a fresh mock vector (1536 draws
from the `Math.random` stream); the returned `Nat` is the advanced stream
position. -/
def generateQueryEmbedding (env : Env) (pos : Nat) (query : String) :
    List ℝ × Nat :=
  match env.apiKey with
  | none => (mockVector env pos, pos + 1536)
  | some _ =>
    match env.embedApi query with
    | .ok e => (e, pos)
    | .error _ => (mockVector env pos, pos + 1536)

/-- The `similarities` array of `findRelevantChunks`: entry `index` pairs
`videoData.chunks[index]` with the cosine similarity of the query against
`videoData.embeddings[index]`. -/
def similarities (queryEmbedding : List ℝ) (videoData : VideoData) :
    List RankedChunk :=
  videoData.embeddings.enum.map
    (fun p => ⟨videoData.chunks.get? p.1, cosineSimilarity queryEmbedding p.2, p.1⟩)

/-- The sort order of `findRelevantChunks`: the comparator
`(a, b) => b.similarity - a.similarity` sorts by descending similarity,
and `Array.prototype.sort` is stable (ECMAScript 2019), which a stable
merge sort under this total `Bool` order realises. -/
def chunkLE (x y : RankedChunk) : Bool :=
  decide (y.similarity ≤ x.similarity)

/-- `findRelevantChunks` from `chatService.ts`: score every stored
embedding against the query, sort by descending similarity, and keep the
first `topK` entries (`topK` defaults to `3` at the only call site). -/
def findRelevantChunks (queryEmbedding : List ℝ) (videoData : VideoData)
    (topK : Nat) : List RankedChunk :=
  ((similarities queryEmbedding videoData).mergeSort chunkLE).take topK

/-- The demo-mode "relevant content found" template of `generateAnswer`. -/
def relevantTemplate (videoTitle : String) : String :=
  "✅ Yes, based on the video \"" ++ videoTitle ++
  "\", I can provide information about your question. Here are the key points:\n\n• The video discusses relevant concepts related to your query\n• Important details are covered in the content\n• The information is presented in a clear and informative manner\n\n*Note: This is a demo response. Configure OpenAI API key for full functionality.*"

/-- The demo-mode "not covered" template of `generateAnswer`. -/
def notCoveredTemplate (question videoTitle : String) : String :=
  "❌ I don" ++ apos ++
  "t have enough relevant information in this video to answer your question about \"" ++
  question ++ "\". The video \"" ++ videoTitle ++ "\" doesn" ++ apos ++
  "t seem to cover this topic in detail."

/-- The grounding context of the model path of `generateAnswer`: each
candidate chunk rendered as its similarity annotation followed by its
text, joined by blank lines.  A `none` chunk renders as the string
`undefined` (in JavaScript the property access on `undefined` would throw
instead, but the chunk and embedding lists always have equal length, so
this case is unreachable). -/
def answerContext (env : Env) (relevantChunks : List RankedChunk) : String :=
  joinWith "\n\n"
    (relevantChunks.map (fun item =>
      "[Similarity: " ++ env.fmtReal item.similarity ++ "] " ++
      ((item.chunk.map TextChunk.text).getD "undefined")))

/-- The system message of the question-answering model call. -/
def answerSystemMsg : String :=
  "You are a helpful assistant that answers questions about video content based only on provided transcript context."

/-- The user prompt of the question-answering model call. -/
def answerPrompt (question : String) (context : String) (videoTitle : String) :
    String :=
  "You are an AI assistant helping users understand video content. Based on the following transcript excerpts from the YouTube video \"" ++
  videoTitle ++ "\", answer the user" ++ apos ++
  "s question.\n\nContext from video transcript:\n" ++ context ++
  "\n\nQuestion: " ++ question ++
  "\n\nInstructions:\n- If the context contains relevant information, provide a clear answer with key points in bullet format\n- Start with ✅ if you can answer the question based on the context\n- Start with ❌ if the context doesn" ++
  apos ++
  "t contain relevant information\n- Be specific and reference the video content\n- Keep the response concise but informative\n- If you cannot answer based on the provided context, clearly state that\n\nAnswer:"

/-- `generateAnswer` from `chatService.ts`.  Without a key: the demo path
thresholds the similarities at `0.3` and returns one of two templates.
With a key: the model reply is returned verbatim (an empty reply models
`null` content and yields the placeholder); a provider failure is
rethrown as `Failed to generate answer. Please try again.`. -/
def generateAnswer (env : Env) (question : String)
    (relevantChunks : List RankedChunk) (videoTitle : String) :
    Except String String :=
  match env.apiKey with
  | none =>
    if relevantChunks.any (fun item => decide ((0.3 : ℝ) < item.similarity)) then
      .ok (relevantTemplate videoTitle)
    else .ok (notCoveredTemplate question videoTitle)
  | some _ =>
    match env.chatApi answerSystemMsg
        (answerPrompt question (answerContext env relevantChunks) videoTitle) with
    | .ok content => .ok (if content = "" then "Unable to generate response" else content)
    | .error _ => .error "Failed to generate answer. Please try again."

/-- The `topK` default of `findRelevantChunks` (the `askQuestion` call
site leaves it at its default). -/
def defaultTopK : Nat := 3

/-- `askQuestion` from `chatService.ts` (its `try`/`catch` logs and
rethrows, so it is the plain composition). -/
def askQuestion (env : Env) (pos : Nat) (question : String)
    (videoData : VideoData) : Except String (String × Nat) :=
  match generateAnswer env question
      (findRelevantChunks (generateQueryEmbedding env pos question).1 videoData
        defaultTopK)
      videoData.title with
  | .ok answer => .ok (answer, (generateQueryEmbedding env pos question).2)
  | .error e => .error e

/-- The demo-mode summary template of `generateVideoSummary`. -/
def demoSummaryTemplate (videoTitle : String) : String :=
  "📋 **Video Summary: " ++ videoTitle ++
  "**\n\nThis video covers several important topics and provides valuable insights. Here are the key takeaways:\n\n• Main concepts and ideas are presented clearly\n• Relevant examples and case studies are discussed  \n• Practical applications and implementations are covered\n• Expert insights and best practices are shared\n\n*Note: Configure OpenAI API key for detailed AI-generated summaries.*"

/-- The system message of the summary model call. -/
def summarySystemMsg : String :=
  "You are an AI assistant that creates concise video summaries. Create bullet-point summaries that capture the key points and main themes."

/-- The user prompt of the summary model call. -/
def summaryPrompt (videoTitle : String) (contextChunks : String) : String :=
  "Create a bullet-point summary of this YouTube video titled \"" ++ videoTitle ++
  "\" based on the following transcript excerpts:\n\n" ++ contextChunks ++
  "\n\nFormat the summary with:\n- A brief title/header\n- 4-6 key bullet points highlighting the main topics\n- Keep it concise and informative\n\nSummary:"

/-- `generateVideoSummary` from `chatService.ts`.  Without a key it
returns the demo template; with a key it summarises the first five
chunks, and its `catch` block converts a provider failure into the plain
string `Unable to generate video summary at this time.` — it never
rethrows. -/
def generateVideoSummary (env : Env) (videoData : VideoData) :
    Except String String :=
  match env.apiKey with
  | none => .ok (demoSummaryTemplate videoData.title)
  | some _ =>
    match env.chatApi summarySystemMsg
        (summaryPrompt videoData.title
          (joinWith "\n\n" ((videoData.chunks.take 5).map TextChunk.text))) with
    | .ok content => .ok (if content = "" then "Unable to generate summary" else content)
    | .error _ => .ok "Unable to generate video summary at this time."

/-- The welcome message appended after a successful ingestion. -/
def welcomeMessage (title : String) : String :=
  "✅ Video processed successfully! I" ++ apos ++ "ve analyzed \"" ++ title ++
  "\" and can now answer questions about its content.\n\n**What I can help you with:**\n• Answer specific questions about the video content\n• Provide summaries of key points\n• Find relevant information from the transcript\n• Explain concepts discussed in the video\n\n**Try asking something like:**\n• \"What is the main topic of this video?\"\n• \"Can you summarize the key points?\"\n• \"Does this video mention [specific topic]?\"\n\n*Ready to chat! Ask me anything about the video.*"

/-- `handleVideoSubmit` from the `App` component, as a transition on the
component state.  Before awaiting `processVideo` it clears the error,
enters the processing state, and resets the message list to `[]`; on
success it stores the new video data and the single welcome message; on
failure it records the error message and the error state — note that
neither branch restores the cleared message list.  `result` is the
outcome of the awaited `processVideo` call and `now` is `Date.now()`. -/
def handleVideoSubmit (result : Except String (VideoData × Nat)) (now : Nat)
    (s : AppState) : AppState :=
  match result with
  | .ok (v, _) =>
    ⟨ProcState.ready, some v,
      [⟨toString now, MsgType.assistant, welcomeMessage v.title, now⟩], none⟩
  | .error e => ⟨ProcState.error, s.videoData, [], some e⟩

/-- Chunk ids are the sequential `chunk-0`, `chunk-1`, … in list order. -/
def IdsSeq (l : List TextChunk) : Prop :=
  ∀ i (h : i < l.length), (l.get ⟨i, h⟩).id = "chunk-" ++ toString i

/-- Loop invariant of `chunkText`: the number of closed chunks equals the
next id, and the closed chunks carry sequential ids. -/
def ChunkInv (st : ChunkState) : Prop :=
  st.chunks.length = st.chunkId ∧ IdsSeq st.chunks

/-- An environment with no API key, a failing transcript source, and a
working metadata source. -/
def envNoTranscript : Env :=
  ⟨none, fun n => (n : ℝ), fun _ => .error "down", fun _ _ => .error "down",
    fun _ => .error "down", fun _ => .ok "Test Video", fun _ => ""⟩

/-- An environment with no API key whose transcript source returns a
single very short caption. -/
def envShortTranscript : Env :=
  ⟨none, fun n => (n : ℝ), fun _ => .error "down", fun _ _ => .error "down",
    fun _ => .ok ["hi"], fun _ => .ok "Test Video", fun _ => ""⟩

/-- An environment with an API key whose chat provider always fails. -/
def envChatDown : Env :=
  ⟨some "sk-test", fun n => (n : ℝ), fun _ => .ok [1], fun _ _ => .error "boom",
    fun _ => .ok ["hello"], fun _ => .ok "Test Video", fun _ => ""⟩

/-- A no-key demo environment with the identity `Math.random` stream. -/
def envDemo : Env :=
  ⟨none, fun n => (n : ℝ), fun _ => .error "down", fun _ _ => .error "down",
    fun _ => .error "down", fun _ => .ok "Test Video", fun _ => ""⟩

/-- An environment with an API key and a working embedding provider that
returns the constant vector `[1]`. -/
def envEmbedOk : Env :=
  ⟨some "sk-test", fun n => (n : ℝ), fun _ => .ok [1], fun _ _ => .error "boom",
    fun _ => .ok ["hello"], fun _ => .ok "Test Video", fun _ => ""⟩

/-- A concrete processed video used by witnesses. -/
def sampleVideo : VideoData :=
  ⟨"abcdefghijk", "Test Video", "thumb", "5:00", "hello world transcript",
    [⟨"chunk-0", "hello world"⟩], [[1]]⟩

/-- A processed video with no chunks and no embeddings. -/
def emptyVideo : VideoData :=
  ⟨"abcdefghijk", "Test Video", "thumb", "5:00", "", [], []⟩

/-- A concrete prior chat message. -/
def sampleMessage : ChatMessage :=
  ⟨"100", MsgType.user, "What is this video about?", 100⟩

/-- A concrete ready application state holding one prior message. -/
def sampleAppState : AppState :=
  ⟨ProcState.ready, some sampleVideo, [sampleMessage], none⟩

end

/-! ### Helper lemmas about trimming and chunk ids -/

theorem dropWhile_append_dot (l : List Char) :
    ∃ t, (l ++ ['.']).dropWhile isSpaceChar = t ++ ['.'] := by
  induction l with
  | nil => exact ⟨[], by decide⟩
  | cons c l ih =>
    by_cases h : isSpaceChar c
    · simpa [List.dropWhile_cons, h] using ih
    · exact ⟨c :: l, by simp [List.dropWhile_cons, h]⟩

theorem trimChars_append_dot_ne (l : List Char) : trimChars (l ++ ['.']) ≠ [] := by
  obtain ⟨t, ht⟩ := dropWhile_append_dot l
  unfold trimChars
  rw [ht, List.reverse_append]
  have hdot : isSpaceChar '.' = false := by decide
  simp [List.dropWhile_cons, hdot]

theorem jsTrim_ne_empty_of_dot (s : String) (h : ∃ l, s.data = l ++ ['.']) :
    jsTrim s ≠ "" := by
  obtain ⟨l, hl⟩ := h
  unfold jsTrim
  intro hcon
  have hdata : trimChars s.data = [] := congrArg String.data hcon
  rw [hl] at hdata
  exact trimChars_append_dot_ne l hdata

theorem str_empty_append (s : String) : "" ++ s = s := by
  apply String.ext
  rw [String.data_append]
  rfl

theorem idsSeq_append {l : List TextChunk} (txt : String) (hl : IdsSeq l) :
    IdsSeq (l ++ [⟨"chunk-" ++ toString l.length, txt⟩]) := by
  intro i h
  have hlen : i < l.length + 1 := by simpa using h
  rcases Nat.lt_succ_iff_lt_or_eq.mp hlen with h' | h'
  · have hx := hl i h'
    simpa [List.get_eq_getElem, List.getElem_append_left h'] using hx
  · subst h'
    rw [List.get_eq_getElem]
    rw [List.getElem_concat_length _ _ _ rfl]

theorem processSentence_inv (L O : Nat) (unit : String) {st : ChunkState}
    (h : ChunkInv st) : ChunkInv (processSentence L O st unit) := by
  obtain ⟨hlen, hids⟩ := h
  unfold processSentence
  split
  · constructor
    · simp [hlen]
    · rw [← hlen]
      exact idsSeq_append _ hids
  · exact ⟨hlen, hids⟩

theorem foldl_chunkInv (L O : Nat) :
    ∀ (units : List String) (st : ChunkState),
      ChunkInv st → ChunkInv (units.foldl (processSentence L O) st)
  | [], _, h => h
  | u :: rest, st, h =>
    foldl_chunkInv L O rest (processSentence L O st u) (processSentence_inv L O u h)

theorem chunkInv_init : ChunkInv ⟨[], "", 0⟩ := by
  refine ⟨rfl, ?_⟩
  intro i h
  exact absurd h (Nat.not_lt_zero i)

theorem chunkText_ids (text : String) (L O : Nat) : IdsSeq (chunkText text L O) := by
  unfold chunkText
  obtain ⟨hlen, hids⟩ :=
    foldl_chunkInv L O (sentenceUnits text) ⟨[], "", 0⟩ chunkInv_init
  unfold finalizeChunks
  split
  · rw [← hlen]
    exact idsSeq_append _ hids
  · exact hids

theorem chunkText_no_units (t : String) (L O : Nat) (h : sentenceUnits t = []) :
    chunkText t L O = [] := by
  unfold chunkText
  rw [h]
  simp only [List.foldl_nil]
  decide

theorem chunkText_single_unit (t u : String) (L O : Nat)
    (h : sentenceUnits t = [u]) :
    chunkText t L O = [⟨"chunk-0", jsTrim (jsTrim u ++ ".")⟩] := by
  unfold chunkText
  rw [h]
  simp only [List.foldl_cons, List.foldl_nil]
  unfold processSentence
  rw [if_neg (by simp)]
  simp only []
  unfold finalizeChunks
  have hcur : ("" : String) ++ (if ("" : String) = "" then "" else " ") ++
      (jsTrim u ++ ".") = jsTrim u ++ "." := by
    rw [if_pos rfl, str_empty_append, str_empty_append]
  rw [if_pos]
  · simp only [hcur]
    rfl
  · simp only [hcur]
    apply jsTrim_ne_empty_of_dot
    exact ⟨(jsTrim u).data, by simp [String.data_append]⟩

/-! ### C3: the chunking algorithm -/

/-- C3: `chunkText` splits the transcript into sentence units on `.`, `!`,
`?` and discards empty units (this is the definition of `sentenceUnits`);
a transcript yielding no sentence units produces an empty chunk list;
chunk ids are sequential; the loop closes the current chunk exactly when
appending the next sentence would make the buffer exceed the bound `L`
while the buffer is non-empty, and then seeds the next buffer with the
last `O` words of the just-closed buffer followed by the new sentence;
and a transcript consisting of a single sentence unit — of any length,
in particular longer than `L` — is emitted as one unsplit chunk, so `L`
is a soft bound. -/
theorem chunkText_spec (t u : String) (L O : Nat) (st : ChunkState)
    (unit : String) :
    (sentenceUnits t = [] → chunkText t L O = []) ∧
    (∀ i (h : i < (chunkText t L O).length),
        ((chunkText t L O).get ⟨i, h⟩).id = "chunk-" ++ toString i) ∧
    ((processSentence L O st unit).chunks ≠ st.chunks ↔
        L < st.current.length + (jsTrim unit ++ ".").length ∧
          0 < st.current.length) ∧
    (L < st.current.length + (jsTrim unit ++ ".").length →
      0 < st.current.length →
        (processSentence L O st unit).chunks =
          st.chunks ++ [⟨"chunk-" ++ toString st.chunkId, jsTrim st.current⟩] ∧
        (processSentence L O st unit).current =
          joinWith " " (jsSliceLast O (jsSplitSpace st.current)) ++ " " ++
            (jsTrim unit ++ ".")) ∧
    (sentenceUnits t = [u] →
        chunkText t L O = [⟨"chunk-0", jsTrim (jsTrim u ++ ".")⟩]) := by
  refine ⟨chunkText_no_units t L O, chunkText_ids t L O, ?_, ?_, chunkText_single_unit t u L O⟩
  · unfold processSentence
    by_cases hc : L < st.current.length + (jsTrim unit ++ ".").length ∧
        0 < st.current.length
    · rw [if_pos hc]
      refine iff_of_true ?_ hc
      intro heq
      have := congrArg List.length heq
      simp at this
    · rw [if_neg hc]
      exact iff_of_false (by simp) hc
  · intro h1 h2
    unfold processSentence
    rw [if_pos ⟨h1, h2⟩]
    exact ⟨rfl, rfl⟩

/-- Witness for C3 at concrete inputs: the transcript `abcdefgh.` has the
single sentence unit `abcdefgh`, which is longer than the bound `L = 5`
and is nevertheless emitted as one unsplit chunk. -/
theorem chunkText_spec_witness :
    sentenceUnits "abcdefgh." = ["abcdefgh"] ∧
    chunkText "abcdefgh." 5 2 = [⟨"chunk-0", jsTrim (jsTrim "abcdefgh" ++ ".")⟩] :=
  ⟨by decide,
    (chunkText_spec "abcdefgh." "abcdefgh" 5 2 ⟨[], "", 0⟩ "x").2.2.2.2 (by decide)⟩

/-! ### C1: the demo answer path -/

theorem head?_append_cons {c : Char} {l1 l2 : List Char} (h : l1.head? = some c) :
    (l1 ++ l2).head? = some c := by
  cases l1 with
  | nil => simp at h
  | cons a l => simpa using h

theorem strStartsWith_of_head (s p : String) (c : Char) (hp : p.data = [c])
    (hs : s.data.head? = some c) : strStartsWith s p = true := by
  unfold strStartsWith
  rw [hp]
  cases hdata : s.data with
  | nil => rw [hdata] at hs; simp at hs
  | cons a l =>
    rw [hdata] at hs
    simp only [List.head?_cons, Option.some.injEq] at hs
    simp [hs]

theorem strStartsWith_ne_head (s p : String) (c c' : Char) (hp : p.data = [c])
    (hs : s.data.head? = some c') (hne : c' ≠ c) : strStartsWith s p = false := by
  unfold strStartsWith
  rw [hp]
  cases hdata : s.data with
  | nil => rw [hdata] at hs; simp at hs
  | cons a l =>
    rw [hdata] at hs
    simp only [List.head?_cons, Option.some.injEq] at hs
    subst hs
    simp [hne]

set_option maxRecDepth 4000 in
theorem relevantTemplate_head (title : String) :
    (relevantTemplate title).data.head? = some '✅' := by
  unfold relevantTemplate
  rw [String.data_append, String.data_append]
  apply head?_append_cons
  apply head?_append_cons
  rfl

set_option maxRecDepth 4000 in
theorem notCoveredTemplate_head (q title : String) :
    (notCoveredTemplate q title).data.head? = some '❌' := by
  unfold notCoveredTemplate
  rw [String.data_append, String.data_append, String.data_append,
    String.data_append, String.data_append, String.data_append,
    String.data_append, String.data_append]
  repeat apply head?_append_cons
  rfl

/-- C1: with no API key configured, the demo answer starts with the `✅`
"relevant content found" template exactly when some ranked pair has
similarity strictly above `0.3`, and otherwise starts with the `❌` "not
covered" template; moreover the demo answer depends only on the
similarity values (plus question and title), never on chunk texts: any
other ranked list with the same similarity list yields the same answer. -/
theorem generateAnswer_demo_spec (env : Env) (q : String)
    (chunks : List RankedChunk) (title a : String)
    (hkey : env.apiKey = none)
    (ha : generateAnswer env q chunks title = .ok a) :
    (strStartsWith a "✅" = true ↔ ∃ item ∈ chunks, (0.3 : ℝ) < item.similarity) ∧
    (strStartsWith a "❌" = true ↔ ¬∃ item ∈ chunks, (0.3 : ℝ) < item.similarity) ∧
    (∀ (chunks' : List RankedChunk),
        chunks'.map RankedChunk.similarity = chunks.map RankedChunk.similarity →
        generateAnswer env q chunks' title = .ok a) := by
  have hany_eq : ∀ (l : List RankedChunk),
      l.any (fun item => decide ((0.3 : ℝ) < item.similarity)) =
        (l.map RankedChunk.similarity).any (fun s => decide ((0.3 : ℝ) < s)) := by
    intro l
    induction l with
    | nil => rfl
    | cons x l ih => simp [List.any_cons, ih]
  unfold generateAnswer at ha ⊢
  rw [hkey] at ha ⊢
  by_cases hany : chunks.any (fun item => decide ((0.3 : ℝ) < item.similarity)) = true
  · rw [if_pos hany] at ha
    have haeq : relevantTemplate title = a := by injection ha
    subst haeq
    have hex : ∃ item ∈ chunks, (0.3 : ℝ) < item.similarity := by
      simpa [List.any_eq_true] using hany
    refine ⟨iff_of_true ?_ hex, iff_of_false ?_ (not_not_intro hex), ?_⟩
    · exact strStartsWith_of_head _ _ '✅' rfl (relevantTemplate_head title)
    · rw [strStartsWith_ne_head _ _ '❌' '✅' rfl (relevantTemplate_head title)
        (by decide)]
      simp
    · intro chunks' hmap
      rw [if_pos (by rw [hany_eq, hmap, ← hany_eq]; exact hany)]
  · rw [if_neg hany] at ha
    have haeq : notCoveredTemplate q title = a := by injection ha
    subst haeq
    have hex : ¬∃ item ∈ chunks, (0.3 : ℝ) < item.similarity := by
      intro hx
      exact hany (by simpa [List.any_eq_true] using hx)
    refine ⟨iff_of_false ?_ hex, iff_of_true ?_ hex, ?_⟩
    · rw [strStartsWith_ne_head _ _ '✅' '❌' rfl (notCoveredTemplate_head q title)
        (by decide)]
      simp
    · exact strStartsWith_of_head _ _ '❌' rfl (notCoveredTemplate_head q title)
    · intro chunks' hmap
      rw [if_neg (by rw [hany_eq, hmap, ← hany_eq]; exact hany)]

/-- Witness for C1: in the demo environment with an empty ranked list the
answer is the `❌` template. -/
theorem generateAnswer_demo_spec_witness :
    strStartsWith (notCoveredTemplate "q" "Test Video") "❌" = true :=
  ((generateAnswer_demo_spec envDemo "q" [] "Test Video"
    (notCoveredTemplate "q" "Test Video") rfl rfl).2.1).mpr (by simp)

/-! ### C6 and C10: cosine similarity -/

theorem simNormA_nonneg (a : List ℝ) : 0 ≤ simNormA a :=
  Finset.sum_nonneg (fun _ _ => mul_self_nonneg _)

theorem simDot_self (a : List ℝ) : simDot a a = simNormA a := rfl

theorem simNormB_self (a : List ℝ) : simNormB a a = simNormA a := rfl

theorem simNormB_eq_of_length {a b : List ℝ} (hab : a.length = b.length) :
    simNormB a b = simNormA b := by
  unfold simNormB simNormA
  rw [hab]

/-- C6: `cosineSimilarity` is the dot product divided by the product of
the Euclidean norms; the similarity of a vector of nonzero norm with
itself is exactly `1`; and on equal-length vectors the similarity is
symmetric. -/
theorem cosineSimilarity_spec (a b : List ℝ) (hab : a.length = b.length)
    (hA : simNormA a ≠ 0) :
    cosineSimilarity a b =
      simDot a b / (Real.sqrt (simNormA a) * Real.sqrt (simNormB a b)) ∧
    cosineSimilarity a a = 1 ∧
    cosineSimilarity a b = cosineSimilarity b a := by
  refine ⟨rfl, ?_, ?_⟩
  · unfold cosineSimilarity
    rw [simDot_self, simNormB_self, Real.mul_self_sqrt (simNormA_nonneg a),
      div_self hA]
  · unfold cosineSimilarity
    have hd : simDot a b = simDot b a := by
      unfold simDot
      rw [hab]
      exact Finset.sum_congr rfl (fun i _ => mul_comm _ _)
    rw [hd, simNormB_eq_of_length hab, simNormB_eq_of_length hab.symm, mul_comm]

/-- Witness for C6: the self-similarity of the one-dimensional vector
`[1]` is `1`. -/
theorem cosineSimilarity_spec_witness : cosineSimilarity [(1 : ℝ)] [(1 : ℝ)] = 1 := by
  have hA : simNormA [(1 : ℝ)] ≠ 0 := by
    unfold simNormA
    simp
  exact (cosineSimilarity_spec [1] [1] rfl hA).2.1

/-- C10: the division in `cosineSimilarity` is unguarded — whenever either
vector has zero squared norm the divisor is zero and the JavaScript result
is `NaN` (modelled as `none` by the checked form); when both norms are
nonzero the division is defined and the result lies in `[-1, 1]` (by the
Cauchy–Schwarz inequality), so the `[-1, 1]` range is only guaranteed
under the nonzero-norm precondition. -/
theorem cosineSimilarity_unguarded_div (a b : List ℝ) (hab : a.length = b.length) :
    ((simNormA a = 0 ∨ simNormA b = 0) → cosineSimilarityChecked a b = none) ∧
    (simNormA a ≠ 0 → simNormA b ≠ 0 →
        cosineSimilarityChecked a b = some (cosineSimilarity a b) ∧
        -1 ≤ cosineSimilarity a b ∧ cosineSimilarity a b ≤ 1) := by
  have hBeq : simNormB a b = simNormA b := simNormB_eq_of_length hab
  have hA0 : 0 ≤ simNormA a := simNormA_nonneg a
  constructor
  · intro h
    unfold cosineSimilarityChecked
    rw [if_pos]
    rcases h with h | h
    · rw [h, Real.sqrt_zero, zero_mul]
    · rw [hBeq, h, Real.sqrt_zero, mul_zero]
  · intro hA hB
    have hApos : 0 < simNormA a := lt_of_le_of_ne hA0 (Ne.symm hA)
    have hBpos : 0 < simNormB a b := by
      rw [hBeq]
      exact lt_of_le_of_ne (simNormA_nonneg b) (Ne.symm hB)
    have hD : 0 < Real.sqrt (simNormA a) * Real.sqrt (simNormB a b) :=
      mul_pos (Real.sqrt_pos.mpr hApos) (Real.sqrt_pos.mpr hBpos)
    have hcs : simDot a b ^ 2 ≤ simNormA a * simNormB a b := by
      have hineq := Finset.sum_mul_sq_le_sq_mul_sq (Finset.range a.length)
        (fun i => a.getD i 0) (fun i => b.getD i 0)
      unfold simDot simNormA simNormB
      simpa only [pow_two] using hineq
    have habs : |simDot a b| ≤ Real.sqrt (simNormA a) * Real.sqrt (simNormB a b) := by
      rw [← Real.sqrt_mul hA0, ← Real.sqrt_sq_eq_abs]
      exact Real.sqrt_le_sqrt hcs
    have hdiv : |cosineSimilarity a b| ≤ 1 := by
      unfold cosineSimilarity
      rw [abs_div, abs_of_pos hD]
      exact (div_le_one hD).mpr habs
    refine ⟨?_, (abs_le.mp hdiv).1, (abs_le.mp hdiv).2⟩
    unfold cosineSimilarityChecked
    rw [if_neg (ne_of_gt hD)]

/-- Witness for C10: on the zero vector the checked similarity is
undefined (`NaN` in JavaScript). -/
theorem cosineSimilarity_unguarded_div_witness :
    cosineSimilarityChecked [(0 : ℝ)] [(0 : ℝ)] = none := by
  have h0 : simNormA [(0 : ℝ)] = 0 := by
    unfold simNormA
    simp
  exact (cosineSimilarity_unguarded_div [0] [0] rfl).1 (Or.inl h0)

/-! ### C4: chunk/embedding alignment -/

theorem embedChunksLive_ok {api : String → Except String (List ℝ)} :
    ∀ (l : List TextChunk) (es : List (List ℝ)),
      embedChunksLive api l = .ok es →
      es.length = l.length ∧
        ∀ i (h : i < l.length) (h2 : i < es.length),
          api ((l.get ⟨i, h⟩).text) = .ok (es.get ⟨i, h2⟩) := by
  intro l
  induction l with
  | nil =>
    intro es hes
    unfold embedChunksLive at hes
    have : ([] : List (List ℝ)) = es := by injection hes
    subst this
    exact ⟨rfl, fun i h _ => absurd h (Nat.not_lt_zero i)⟩
  | cons c rest ih =>
    intro es hes
    unfold embedChunksLive at hes
    cases h1 : api c.text with
    | error e => rw [h1] at hes; simp at hes
    | ok v =>
      rw [h1] at hes
      cases h2 : embedChunksLive api rest with
      | error e => rw [h2] at hes; simp at hes
      | ok vs =>
        rw [h2] at hes
        have hcons : v :: vs = es := by injection hes
        subst hcons
        obtain ⟨hlen, hcorr⟩ := ih vs h2
        refine ⟨by simpa using hlen, ?_⟩
        intro i h h'
        cases i with
        | zero => simpa using h1
        | succ j =>
          have hj : j < rest.length := by simpa using h
          have hj' : j < vs.length := by simpa using h'
          simpa using hcorr j hj hj'

theorem generateEmbeddings_length (env : Env) (pos : Nat)
    (chunks : List TextChunk) :
    (generateEmbeddings env pos chunks).1.length = chunks.length := by
  unfold generateEmbeddings
  cases hk : env.apiKey with
  | none => simp [List.length_mapIdx]
  | some key =>
    cases hlive : embedChunksLive env.embedApi chunks with
    | error e => simp [List.length_mapIdx]
    | ok es => simpa using (embedChunksLive_ok chunks es hlive).1

/-- C4: for every `generateEmbeddings` result the embedding list has
exactly one entry per chunk: in the live-provider path the result is the
per-chunk provider output in order (`embeddings[i]` is the embedding the
provider produced for `chunks[i]`); in the no-key path and after a
mid-list provider failure the entire list is replaced by one mock vector
per chunk; and any `VideoData` returned by a successful `processVideo`
satisfies `embeddings.length = chunks.length`. -/
theorem generateEmbeddings_align (env : Env) (pos : Nat)
    (chunks : List TextChunk) (url : String) (v : VideoData) (pos2 : Nat) :
    (generateEmbeddings env pos chunks).1.length = chunks.length ∧
    (∀ key es, env.apiKey = some key →
        embedChunksLive env.embedApi chunks = .ok es →
        (generateEmbeddings env pos chunks).1 = es ∧
        ∀ i (h : i < chunks.length) (h2 : i < es.length),
          env.embedApi ((chunks.get ⟨i, h⟩).text) = .ok (es.get ⟨i, h2⟩)) ∧
    (env.apiKey = none →
        (generateEmbeddings env pos chunks).1 =
          chunks.mapIdx (fun i _ => mockVector env (pos + 1536 * i))) ∧
    (∀ key e, env.apiKey = some key →
        embedChunksLive env.embedApi chunks = .error e →
        (generateEmbeddings env pos chunks).1 =
          chunks.mapIdx (fun i _ => mockVector env (pos + 1536 * i))) ∧
    (processVideo env pos url = .ok (v, pos2) →
        v.embeddings.length = v.chunks.length) := by
  refine ⟨generateEmbeddings_length env pos chunks, ?_, ?_, ?_, ?_⟩
  · intro key es hk hlive
    refine ⟨?_, (embedChunksLive_ok chunks es hlive).2⟩
    unfold generateEmbeddings
    rw [hk, hlive]
  · intro hk
    unfold generateEmbeddings
    rw [hk]
  · intro key e hk hlive
    unfold generateEmbeddings
    rw [hk, hlive]
  · intro hp
    unfold processVideo at hp
    split at hp
    · exact absurd hp (by simp)
    · split at hp
      · exact absurd hp (by simp)
      · split at hp
        · exact absurd hp (by simp)
        · split at hp
          · exact absurd hp (by simp)
          · injection hp with h1
            injection h1 with hv hpos
            rw [← hv]
            exact generateEmbeddings_length env pos _

/-- Witness for C4: in the keyed environment whose provider embeds every
chunk as `[1]`, the embedding list aligns with the singleton chunk list. -/
theorem generateEmbeddings_align_witness :
    (generateEmbeddings envEmbedOk 0 [⟨"chunk-0", "hello"⟩]).1 = [[(1 : ℝ)]] :=
  ((generateEmbeddings_align envEmbedOk 0 [⟨"chunk-0", "hello"⟩] "" emptyVideo 0).2.1
    "sk-test" [[(1 : ℝ)]] rfl rfl).1

/-! ### C5: provider failures during synthesis -/

/-- C5 (amended): when a model is configured and the chat provider fails,
question answering surfaces a hard failure — `generateAnswer` (and hence
`askQuestion`) throws `Failed to generate answer. Please try again.` —
but `generateVideoSummary` does **not** share this contract: its `catch`
degrades the failure to the ordinary string
`Unable to generate video summary at this time.`. -/
theorem modelFailure_spec (env : Env) (pos : Nat) (key q title msg : String)
    (chunks : List RankedChunk) (v : VideoData)
    (hk : env.apiKey = some key)
    (hfail : ∀ s u, env.chatApi s u = .error msg) :
    generateAnswer env q chunks title =
      .error "Failed to generate answer. Please try again." ∧
    askQuestion env pos q v =
      .error "Failed to generate answer. Please try again." ∧
    generateVideoSummary env v =
      .ok "Unable to generate video summary at this time." := by
  have hga : ∀ (cs : List RankedChunk) (t : String),
      generateAnswer env q cs t =
        .error "Failed to generate answer. Please try again." := by
    intro cs t
    unfold generateAnswer
    rw [hk, hfail]
  refine ⟨hga chunks title, ?_, ?_⟩
  · unfold askQuestion
    rw [hga]
  · unfold generateVideoSummary
    rw [hk, hfail]

/-- Counterexample to C5 as stated: with a configured key and a failing
chat provider, `generateVideoSummary` does not throw — it returns an
ordinary (apologetic) answer string. -/
theorem generateVideoSummary_degrades :
    generateVideoSummary envChatDown sampleVideo =
      .ok "Unable to generate video summary at this time." := rfl

/-- Witness for the amended C5 at a concrete environment. -/
theorem modelFailure_spec_witness :
    generateAnswer envChatDown "q" [] "T" =
      .error "Failed to generate answer. Please try again." ∧
    askQuestion envChatDown 0 "q" sampleVideo =
      .error "Failed to generate answer. Please try again." ∧
    generateVideoSummary envChatDown sampleVideo =
      .ok "Unable to generate video summary at this time." :=
  modelFailure_spec envChatDown 0 "sk-test" "q" "T" "boom" [] sampleVideo rfl
    (fun _ _ => rfl)

/-! ### C7: transcript failures -/

/-- C7 (amended): a transcript-source failure does **not** abort the
pipeline — `extractTranscript` silently substitutes the mock dictionary
entry (or its catch-all default) for the failed fetch; only a transcript
that is (after that substitution) shorter than 50 characters makes
`processVideo` fail.  In particular, when the source succeeds with a
too-short transcript the pipeline aborts with the fixed error message. -/
theorem transcript_failure_spec (env : Env) (pos : Nat) (url vid : String)
    (items : List String) (e : String) :
    (env.transcriptApi vid = .error e →
        extractTranscript env vid =
          (mockTranscripts vid).getD defaultMockTranscript) ∧
    (env.transcriptApi vid = .ok items →
        extractTranscript env vid = joinWith " " items) ∧
    (extractVideoId url = some vid →
      (∃ title, env.metadataApi vid = .ok title) →
      (extractTranscript env vid).length < 50 →
      processVideo env pos url =
        .error "No transcript available for this video or transcript is too short") := by
  refine ⟨?_, ?_, ?_⟩
  · intro h
    unfold extractTranscript
    rw [h]
  · intro h
    unfold extractTranscript
    rw [h]
  · intro hvid hmeta ht
    obtain ⟨title, hmeta⟩ := hmeta
    unfold processVideo
    rw [hvid]
    simp only [hmeta]
    rw [if_pos ht]

set_option maxRecDepth 10000 in
/-- Counterexample to C7 as stated: with a failing transcript source,
`processVideo` nevertheless succeeds (the fetch failure is replaced by the
catch-all mock transcript). -/
theorem processVideo_ignores_transcript_failure :
    envNoTranscript.transcriptApi "abcdefghijk" = .error "down" ∧
    (processVideo envNoTranscript 0
        "https://youtube.com/watch?v=abcdefghijk").isOk = true :=
  ⟨rfl, by decide⟩

/-- Witness for the amended C7: a fetched transcript of 2 characters
aborts the pipeline. -/
theorem transcript_failure_spec_witness :
    processVideo envShortTranscript 0 "https://youtube.com/watch?v=abcdefghijk" =
      .error "No transcript available for this video or transcript is too short" :=
  (transcript_failure_spec envShortTranscript 0
      "https://youtube.com/watch?v=abcdefghijk" "abcdefghijk" [] "nope").2.2
    (by decide) ⟨"Test Video", rfl⟩ (by decide)

/-! ### C8: the fallback embedding -/

theorem mockVector_length (env : Env) (pos : Nat) :
    (mockVector env pos).length = 1536 := by
  simp [mockVector]

theorem mockVector_getElem? (env : Env) (pos i : Nat) (h : i < 1536) :
    (mockVector env pos)[i]? = some (env.rand (pos + i) - 0.5) := by
  unfold mockVector
  rw [List.getElem?_map, List.getElem?_range h]
  rfl

/-- C8 (amended): the demo fallback of `generateQueryEmbedding` is a
pseudo-random vector, not a function of the text: it returns the next
1536 draws of the `Math.random` stream (each shifted by `-0.5`) and
advances the stream, so it is independent of the query text but differs
between two successive calls (see the counterexample); the vector always
has 1536 components. -/
theorem mockEmbedding_spec (env : Env) (pos : Nat) (q q2 : String)
    (hk : env.apiKey = none) :
    generateQueryEmbedding env pos q = (mockVector env pos, pos + 1536) ∧
    (mockVector env pos).length = 1536 ∧
    (∀ i, i < 1536 →
        (mockVector env pos)[i]? = some (env.rand (pos + i) - 0.5)) ∧
    generateQueryEmbedding env pos q = generateQueryEmbedding env pos q2 := by
  have h1 : generateQueryEmbedding env pos q = (mockVector env pos, pos + 1536) := by
    unfold generateQueryEmbedding
    rw [hk]
  have h2 : generateQueryEmbedding env pos q2 = (mockVector env pos, pos + 1536) := by
    unfold generateQueryEmbedding
    rw [hk]
  exact ⟨h1, mockVector_length env pos,
    fun i h => mockVector_getElem? env pos i h, h1.trans h2.symm⟩

set_option maxRecDepth 40000 in
/-- Counterexample to C8 as stated: embedding the same text twice in two
successive demo-mode runs yields two different 1536-component vectors,
because each run consumes fresh `Math.random` draws — the fallback is not
deterministic across runs. -/
theorem mockEmbedding_not_deterministic :
    (generateQueryEmbedding envDemo 0 "hello").1 ≠
      (generateQueryEmbedding envDemo
        (generateQueryEmbedding envDemo 0 "hello").2 "hello").1 := by
  intro h
  have e1 : (generateQueryEmbedding envDemo 0 "hello").1 = mockVector envDemo 0 := rfl
  have e2 : (generateQueryEmbedding envDemo
      (generateQueryEmbedding envDemo 0 "hello").2 "hello").1 =
      mockVector envDemo 1536 := rfl
  rw [e1, e2] at h
  have g1 := mockVector_getElem? envDemo 0 0 (by norm_num)
  have g2 := mockVector_getElem? envDemo 1536 0 (by norm_num)
  rw [h] at g1
  have heq := Option.some.inj (g2.symm.trans g1)
  norm_num [envDemo] at heq

/-- Witness for the amended C8: the demo-mode query embedding is
independent of the query text. -/
theorem mockEmbedding_spec_witness :
    generateQueryEmbedding envDemo 0 "a" = generateQueryEmbedding envDemo 0 "b" :=
  (mockEmbedding_spec envDemo 0 "a" "b" rfl).2.2.2

/-! ### C9: failed ingestion and the prior session -/

/-- C9 (amended): a failing ingestion leaves the prior video data (id,
title, transcript, chunks, embeddings) untouched and records the error,
but it does **not** preserve the chat history: `handleVideoSubmit` clears
the message list before awaiting `processVideo` and the failure branch
never restores it, so after a failed attempt the message list is empty. -/
theorem handleVideoSubmit_failure_spec (res : Except String (VideoData × Nat))
    (now : Nat) (s : AppState) (e : String) (hres : res = .error e) :
    (handleVideoSubmit res now s).videoData = s.videoData ∧
    (handleVideoSubmit res now s).messages = [] ∧
    (handleVideoSubmit res now s).processingState = ProcState.error ∧
    (handleVideoSubmit res now s).error = some e := by
  subst hres
  exact ⟨rfl, rfl, rfl, rfl⟩

/-- Counterexample to C9 as stated: a failed ingestion does not leave the
prior session's message history unchanged — the prior message list is
cleared. -/
theorem handleVideoSubmit_clears_history :
    sampleAppState.messages ≠ [] ∧
    (handleVideoSubmit (.error "Invalid YouTube URL") 200 sampleAppState).messages = [] ∧
    (handleVideoSubmit (.error "Invalid YouTube URL") 200 sampleAppState).videoData =
      sampleAppState.videoData := by
  refine ⟨?_, rfl, rfl⟩
  decide

/-- Witness for the amended C9 at a concrete failing submission. -/
theorem handleVideoSubmit_failure_spec_witness :
    (handleVideoSubmit (.error "boom") 7 sampleAppState).videoData =
      sampleAppState.videoData ∧
    (handleVideoSubmit (.error "boom") 7 sampleAppState).messages = [] ∧
    (handleVideoSubmit (.error "boom") 7 sampleAppState).processingState =
      ProcState.error ∧
    (handleVideoSubmit (.error "boom") 7 sampleAppState).error = some "boom" :=
  handleVideoSubmit_failure_spec (.error "boom") 7 sampleAppState "boom" rfl

/-! ### C2: the similarity ranker -/

theorem chunkLE_trans (a b c : RankedChunk) (hab : chunkLE a b = true)
    (hbc : chunkLE b c = true) : chunkLE a c = true := by
  simp only [chunkLE, decide_eq_true_iff] at *
  exact le_trans hbc hab

theorem chunkLE_total (a b : RankedChunk) : (chunkLE a b || chunkLE b a) = true := by
  simp only [chunkLE, Bool.or_eq_true, decide_eq_true_iff]
  exact le_total b.similarity a.similarity

theorem similarities_length (q : List ℝ) (v : VideoData) :
    (similarities q v).length = v.embeddings.length := by
  simp [similarities, List.enum_length]

theorem similarities_get (q : List ℝ) (v : VideoData) (k : Nat)
    (hk : k < (similarities q v).length) (hk2 : k < v.embeddings.length) :
    (similarities q v).get ⟨k, hk⟩ =
      ⟨v.chunks.get? k, cosineSimilarity q (v.embeddings.get ⟨k, hk2⟩), k⟩ := by
  unfold similarities
  rw [List.get_eq_getElem, List.getElem_map, List.getElem_enum]
  rfl

theorem similarities_index (q : List ℝ) (v : VideoData) (k : Nat)
    (hk : k < (similarities q v).length) :
    ((similarities q v).get ⟨k, hk⟩).index = k := by
  have hk2 : k < v.embeddings.length := by rwa [similarities_length] at hk
  rw [similarities_get q v k hk hk2]

theorem similarities_nodup (q : List ℝ) (v : VideoData) :
    (similarities q v).Nodup := by
  have hmap : (similarities q v).map RankedChunk.index =
      List.range v.embeddings.length := by
    unfold similarities
    rw [List.map_map]
    exact List.enum_map_fst v.embeddings
  have hnd : ((similarities q v).map RankedChunk.index).Nodup := by
    rw [hmap]
    exact List.nodup_range _
  exact List.Nodup.of_map _ hnd

theorem similarities_mem_get {q : List ℝ} {v : VideoData} {x : RankedChunk}
    (hx : x ∈ similarities q v) :
    ∃ h : x.index < (similarities q v).length,
      (similarities q v).get ⟨x.index, h⟩ = x := by
  obtain ⟨⟨k, hk⟩, hget⟩ := List.mem_iff_get.mp hx
  have hidx : x.index = k := by
    rw [← hget, similarities_index]
  refine ⟨by rw [hidx]; exact hk, ?_⟩
  have hfin : (⟨x.index, by rw [hidx]; exact hk⟩ : Fin (similarities q v).length) =
      ⟨k, hk⟩ := Fin.ext hidx
  rw [hfin, hget]

theorem pair_sublist_of_get {α : Type} (l : List α) {p q : Nat} (hp : p < l.length)
    (hq : q < l.length) (hpq : p < q) :
    [l.get ⟨p, hp⟩, l.get ⟨q, hq⟩].Sublist l := by
  have hdrop : l.drop p = l.get ⟨p, hp⟩ :: l.drop (p + 1) := by
    rw [List.get_eq_getElem]
    exact List.drop_eq_getElem_cons hp
  obtain ⟨d, hd⟩ : ∃ d, q = p + 1 + d := ⟨q - (p + 1), by omega⟩
  subst hd
  have hq' : d < (l.drop (p + 1)).length := by
    rw [List.length_drop]
    omega
  have hmem : l.get ⟨p + 1 + d, hq⟩ ∈ l.drop (p + 1) := by
    have hgd : (l.drop (p + 1)).get ⟨d, hq'⟩ = l.get ⟨p + 1 + d, hq⟩ := by
      rw [List.get_eq_getElem, List.get_eq_getElem, List.getElem_drop]
    rw [← hgd]
    exact List.get_mem _ _ _
  have h2 : [l.get ⟨p, hp⟩, l.get ⟨p + 1 + d, hq⟩].Sublist
      (l.get ⟨p, hp⟩ :: l.drop (p + 1)) :=
    List.Sublist.cons₂ _ (List.singleton_sublist.mpr hmem)
  exact h2.trans (by rw [← hdrop]; exact List.drop_sublist p l)

theorem sublist_pair_index {α : Type} {x y : α} {m : List α} (hnd : m.Nodup)
    (hsub : [y, x].Sublist m) {i j : Nat} (hi : i < m.length) (hj : j < m.length)
    (hx : m.get ⟨i, hi⟩ = x) (hy : m.get ⟨j, hj⟩ = y) : j < i := by
  obtain ⟨f, hf⟩ := List.sublist_iff_exists_fin_orderEmbedding_get_eq.mp hsub
  have h0 : m.get (f ⟨0, by norm_num⟩) = y := (hf ⟨0, by norm_num⟩).symm
  have h1 : m.get (f ⟨1, by norm_num⟩) = x := (hf ⟨1, by norm_num⟩).symm
  have hlt : (⟨0, by norm_num⟩ : Fin ([y, x].length)) < ⟨1, by norm_num⟩ := by
    simp [Fin.lt_def]
  have hf01 : f ⟨0, by norm_num⟩ < f ⟨1, by norm_num⟩ := f.strictMono hlt
  have hx' : f ⟨1, by norm_num⟩ = ⟨i, hi⟩ := hnd.get_inj_iff.mp (by rw [h1, hx])
  have hy' : f ⟨0, by norm_num⟩ = ⟨j, hj⟩ := hnd.get_inj_iff.mp (by rw [h0, hy])
  rw [hx', hy'] at hf01
  exact hf01

theorem mergeSort_sim_sorted (l : List RankedChunk) :
    (l.mergeSort chunkLE).Pairwise (fun a b => b.similarity ≤ a.similarity) := by
  have hs := @List.sorted_mergeSort RankedChunk chunkLE
    (fun a b c => chunkLE_trans a b c) (fun a b => chunkLE_total a b) l
  exact hs.imp (fun h => by simpa [chunkLE, decide_eq_true_iff] using h)

theorem mergeSort_take_stable (l : List RankedChunk) (K : Nat)
    (hnd : l.Nodup)
    (hidx : ∀ k (hk : k < l.length), (l.get ⟨k, hk⟩).index = k)
    (i j : Nat) (hi : i < ((l.mergeSort chunkLE).take K).length)
    (hj : j < ((l.mergeSort chunkLE).take K).length) (hij : i < j)
    (hsim : (((l.mergeSort chunkLE).take K).get ⟨i, hi⟩).similarity =
        (((l.mergeSort chunkLE).take K).get ⟨j, hj⟩).similarity) :
    (((l.mergeSort chunkLE).take K).get ⟨i, hi⟩).index <
      (((l.mergeSort chunkLE).take K).get ⟨j, hj⟩).index := by
  have hle : ((l.mergeSort chunkLE).take K).length ≤ (l.mergeSort chunkLE).length := by
    rw [List.length_take]
    exact min_le_right _ _
  have hi2 : i < (l.mergeSort chunkLE).length := lt_of_lt_of_le hi hle
  have hj2 : j < (l.mergeSort chunkLE).length := lt_of_lt_of_le hj hle
  have hgi : ((l.mergeSort chunkLE).take K).get ⟨i, hi⟩ =
      (l.mergeSort chunkLE).get ⟨i, hi2⟩ := by
    rw [List.get_eq_getElem, List.get_eq_getElem, List.getElem_take]
  have hgj : ((l.mergeSort chunkLE).take K).get ⟨j, hj⟩ =
      (l.mergeSort chunkLE).get ⟨j, hj2⟩ := by
    rw [List.get_eq_getElem, List.get_eq_getElem, List.getElem_take]
  rw [hgi, hgj] at hsim ⊢
  have hndm : (l.mergeSort chunkLE).Nodup :=
    (List.mergeSort_perm l chunkLE).symm.nodup hnd
  have hxmem : (l.mergeSort chunkLE).get ⟨i, hi2⟩ ∈ l :=
    (List.mergeSort_perm l chunkLE).subset (List.get_mem _ _ _)
  have hymem : (l.mergeSort chunkLE).get ⟨j, hj2⟩ ∈ l :=
    (List.mergeSort_perm l chunkLE).subset (List.get_mem _ _ _)
  obtain ⟨⟨a, ha⟩, hga⟩ := List.mem_iff_get.mp hxmem
  obtain ⟨⟨b, hb⟩, hgb⟩ := List.mem_iff_get.mp hymem
  have hxa : ((l.mergeSort chunkLE).get ⟨i, hi2⟩).index = a := by
    rw [← hga, hidx]
  have hyb : ((l.mergeSort chunkLE).get ⟨j, hj2⟩).index = b := by
    rw [← hgb, hidx]
  rw [hxa, hyb]
  by_contra hab
  push_neg at hab
  rcases lt_or_eq_of_le hab with hba | hba
  · have hpair : [l.get ⟨b, hb⟩, l.get ⟨a, ha⟩].Sublist l :=
      pair_sublist_of_get l hb ha hba
    rw [hga, hgb] at hpair
    have hle' : chunkLE ((l.mergeSort chunkLE).get ⟨j, hj2⟩)
        ((l.mergeSort chunkLE).get ⟨i, hi2⟩) = true := by
      simp only [chunkLE, decide_eq_true_iff]
      exact le_of_eq hsim
    have hsub2 := List.pair_sublist_mergeSort
      (fun a b c => chunkLE_trans a b c) (fun a b => chunkLE_total a b)
      hle' hpair
    have hji := sublist_pair_index hndm hsub2 hi2 hj2 rfl rfl
    omega
  · have hxy : (l.mergeSort chunkLE).get ⟨i, hi2⟩ =
        (l.mergeSort chunkLE).get ⟨j, hj2⟩ := by
      rw [← hga, ← hgb]
      exact congrArg _ (Fin.ext hba.symm)
    have := hndm.get_inj_iff.mp hxy
    have : i = j := congrArg Fin.val this
    omega

/-- C2: `findRelevantChunks` pairs each stored chunk with the cosine
similarity of the query against the chunk's embedding, returns the
entries in non-increasing similarity order, breaks exact ties by original
chunk order (tracked by the `index` field), truncates to at most `K`
entries, and when `K` is at least the number of stored embeddings returns
exactly all entries (as a permutation of the full scored list); the
`topK` parameter defaults to `3` at its only call site. -/
theorem findRelevantChunks_spec (q : List ℝ) (v : VideoData) (K : Nat)
    (hlen : v.chunks.length = v.embeddings.length) :
    List.Pairwise (fun x y => y.similarity ≤ x.similarity)
      (findRelevantChunks q v K) ∧
    (∀ i j (hi : i < (findRelevantChunks q v K).length)
        (hj : j < (findRelevantChunks q v K).length), i < j →
        ((findRelevantChunks q v K).get ⟨i, hi⟩).similarity =
          ((findRelevantChunks q v K).get ⟨j, hj⟩).similarity →
        ((findRelevantChunks q v K).get ⟨i, hi⟩).index <
          ((findRelevantChunks q v K).get ⟨j, hj⟩).index) ∧
    (findRelevantChunks q v K).length = min K v.embeddings.length ∧
    (v.embeddings.length ≤ K →
        (findRelevantChunks q v K).Perm (similarities q v)) ∧
    (∀ x ∈ findRelevantChunks q v K,
        ∃ h : x.index < v.chunks.length,
          x.chunk = some (v.chunks.get ⟨x.index, h⟩) ∧
          ∃ h2 : x.index < v.embeddings.length,
            x.similarity = cosineSimilarity q (v.embeddings.get ⟨x.index, h2⟩)) ∧
    defaultTopK = 3 := by
  refine ⟨?_, ?_, ?_, ?_, ?_, rfl⟩
  · exact List.Pairwise.sublist (List.take_sublist _ _)
      (mergeSort_sim_sorted (similarities q v))
  · exact fun i j hi hj hij hsim =>
      mergeSort_take_stable (similarities q v) K (similarities_nodup q v)
        (fun k hk => similarities_index q v k hk) i j hi hj hij hsim
  · unfold findRelevantChunks
    rw [List.length_take, List.length_mergeSort, similarities_length]
  · intro hK
    unfold findRelevantChunks
    rw [List.take_of_length_le]
    · exact List.mergeSort_perm _ _
    · rw [List.length_mergeSort, similarities_length]
      exact hK
  · intro x hx
    have hxl : x ∈ similarities q v :=
      (List.mergeSort_perm _ chunkLE).subset ((List.take_sublist _ _).subset hx)
    obtain ⟨hidx, hget⟩ := similarities_mem_get hxl
    have hidx2 : x.index < v.embeddings.length := by
      rwa [similarities_length] at hidx
    have hidx1 : x.index < v.chunks.length := by
      rw [hlen]
      exact hidx2
    have hx_eq := hget
    rw [similarities_get q v x.index hidx hidx2] at hx_eq
    have hchunk := congrArg RankedChunk.chunk hx_eq
    have hsim := congrArg RankedChunk.similarity hx_eq
    refine ⟨hidx1, ?_, hidx2, hsim.symm⟩
    rw [← hchunk]
    rw [List.get?_eq_getElem?, List.getElem?_eq_getElem hidx1, List.get_eq_getElem]
    rfl

/-- Witness for C2 at the concrete empty session. -/
theorem findRelevantChunks_spec_witness :
    (findRelevantChunks [] emptyVideo 3).length = min 3 emptyVideo.embeddings.length :=
  (findRelevantChunks_spec [] emptyVideo 3 rfl).2.2.1
